import Mathlib

/-!
Verification development for the insight-platform Adaptive Learning Core.

Shallow embedding of the three engines under `src/backend/ai_engine/`:
`adaptive_practice.py`, `knowledge_tracing.py`, `engagement_detection.py`.

Modelling conventions:
- Python floats are embedded as `ℚ` (the source performs only field
  arithmetic, `min`/`max` and comparisons on them).
- Python ints are `ℤ` (durations, budgets) or `ℕ` (counts).
- Python dicts used as maps with `.get` defaults are embedded as
  `String → Option ℚ` together with `masteryGet`.
- `np.mean l` is `l.sum / l.length`; for the one place the source can take
  a mean of an empty list (declining-performance detection on a
  one-element window) the embedding's `meanQ [] = 0` produces the same
  observable branch as NumPy's NaN (both fail the `> 0.2` test).
- Display-only strings built with f-string number interpolation, and
  `datetime.now()` timestamps, are not modelled (the behavior records keep
  their kind, severity and numeric metric).
-/

namespace Insight

/-- Mean of a list of rationals, `np.mean`; division by zero yields 0. -/
def meanQ (l : List ℚ) : ℚ := l.sum / l.length

/-- Round-half-to-even to an integer, as Python's builtin `round`. -/
def roundHalfEven (x : ℚ) : ℤ :=
  let f := ⌊x⌋
  let r := x - f
  if r < 1/2 then f
  else if 1/2 < r then f + 1
  else if 2 ∣ f then f else f + 1

/-- Python `round(x, 2)`: round half-to-even at two decimal places. -/
def round2 (x : ℚ) : ℚ := (roundHalfEven (x * 100) : ℚ) / 100

/-- Lookup in a mastery-style dict with a default: `d.get(k, default)`. -/
def masteryGet (m : String → Option ℚ) (c : String) (d : ℚ) : ℚ := (m c).getD d

/-! ## adaptive_practice.py -/

/-- `CognitiveLoadConfig` with the source's default thresholds. -/
structure CognitiveLoadConfig where
  optimal_load : ℚ := 65/100
  min_load : ℚ := 4/10
  max_load : ℚ := 85/100

/-- The engine's default configuration (`CognitiveLoadConfig()`). -/
def defaultLoadConfig : CognitiveLoadConfig := {}

/-- `ContentItem` dataclass; `prerequisites=None` normalizes to `[]`. -/
structure ContentItem where
  item_id : String
  concept_id : String
  difficulty : ℚ
  weight : ℚ := 1
  estimated_time : ℤ := 5
  scaffolding_available : Bool := true
  prerequisites : List String := []
deriving DecidableEq, Repr

/-- `AdaptivePracticeEngine.calculate_cognitive_load`:
`L = Σ weight·difficulty·(1 − ki)` over the items, divided by the item
count; `0.0` for an empty item list. Note the source computes
`ki = student_mastery.get(item.concept_id, 0.3) / 100.0`: the default
`0.3` is applied on the 0–100 scale before the division, so an absent
concept contributes proficiency `0.003`, not `0.3`. -/
def calculate_cognitive_load (content_items : List ContentItem)
    (student_mastery : String → Option ℚ) : ℚ :=
  let total_load : ℚ := (content_items.map (fun item =>
    let ki := masteryGet student_mastery item.concept_id (3/10) / 100
    item.weight * item.difficulty * (1 - ki))).sum
  if content_items.length = 0 then 0 else total_load / content_items.length

/-- `AdaptivePracticeEngine._filter_by_mastery`, with the running
per-concept counts made explicit (`concept_counts` dict as a function). -/
def filter_by_mastery_aux (student_mastery : String → Option ℚ) :
    List ContentItem → (String → ℕ) → List ContentItem
  | [], _ => []
  | item :: rest, counts =>
    let mastery := masteryGet student_mastery item.concept_id 30
    if 85 ≤ mastery then
      filter_by_mastery_aux student_mastery rest counts
    else if 60 ≤ mastery then
      let count := counts item.concept_id
      if count < 2 then
        item :: filter_by_mastery_aux student_mastery rest
          (fun c => if c = item.concept_id then count + 1 else counts c)
      else filter_by_mastery_aux student_mastery rest counts
    else
      let count := counts item.concept_id
      if count < 10 then
        item :: filter_by_mastery_aux student_mastery rest
          (fun c => if c = item.concept_id then count + 1 else counts c)
      else filter_by_mastery_aux student_mastery rest counts

/-- `AdaptivePracticeEngine._filter_by_mastery` entry point. -/
def filter_by_mastery (content : List ContentItem)
    (student_mastery : String → Option ℚ) : List ContentItem :=
  filter_by_mastery_aux student_mastery content (fun _ => 0)

/-- Minimum of a list of rationals, `min(l)`; `none` for an empty list. -/
def listMin : List ℚ → Option ℚ
  | [] => none
  | x :: xs => some (xs.foldl min x)

/-- The ZPD score computed per item inside
`AdaptivePracticeEngine._prioritize_by_zpd`. -/
def zpd_item_score (student_mastery : String → Option ℚ)
    (learning_velocity : String → Option ℚ) (item : ContentItem) : ℚ :=
  let mastery := masteryGet student_mastery item.concept_id 30 / 100
  let velocity := (learning_velocity item.concept_id).getD 0
  let zpd_distance := item.difficulty - mastery
  let zpd_score : ℚ :=
    if 1/10 ≤ zpd_distance ∧ zpd_distance ≤ 3/10 then 1
    else if 0 ≤ zpd_distance ∧ zpd_distance < 1/10 then 6/10
    else if 3/10 < zpd_distance ∧ zpd_distance ≤ 5/10 then
      (if item.scaffolding_available then 7/10 else 3/10)
    else 2/10
  let zpd_score := if 0 < velocity then zpd_score * (12/10) else zpd_score
  let prereq_mastery := item.prerequisites.map (fun p => masteryGet student_mastery p 0)
  match listMin prereq_mastery with
  | some m => if m < 60 then zpd_score * (5/10) else zpd_score
  | none => zpd_score

/-- `AdaptivePracticeEngine._prioritize_by_zpd`: score each item, then sort
descending by score. Python's `list.sort(key=·, reverse=True)` is a stable
descending sort; `List.insertionSort` with this relation is stable for the
same total preorder, hence produces the identical list. -/
def prioritize_by_zpd (content : List ContentItem)
    (student_mastery : String → Option ℚ)
    (learning_velocity : String → Option ℚ) : List ContentItem :=
  let scored_content := content.map
    (fun item => (zpd_item_score student_mastery learning_velocity item, item))
  (scored_content.insertionSort (fun a b => b.1 ≤ a.1)).map (fun x => x.2)

/-- The scaffolded variant synthesized inside `select_next_content`
(difficulty × 0.7, id suffixed, duration + 2, scaffolding disabled;
`prerequisites` is not passed, so it normalizes to `[]`). -/
def scaffoldItem (item : ContentItem) : ContentItem :=
  { item_id := item.item_id ++ "_scaffolded"
    concept_id := item.concept_id
    difficulty := item.difficulty * (7/10)
    weight := item.weight
    estimated_time := item.estimated_time + 2
    scaffolding_available := false
    prerequisites := [] }

/-- The selection loop of `AdaptivePracticeEngine.select_next_content`
(its `for item in prioritized` body, with `selected_items` and
`current_time` as accumulators; `break` returns the accumulated list). -/
def select_loop (cfg : CognitiveLoadConfig)
    (student_mastery : String → Option ℚ) (session_time_remaining : ℤ) :
    List ContentItem → List ContentItem → ℤ → List ContentItem
  | [], selected_items, _ => selected_items
  | item :: rest, selected_items, current_time =>
    if session_time_remaining < current_time + item.estimated_time then
      selected_items
    else
      let projected_load := calculate_cognitive_load (selected_items ++ [item]) student_mastery
      if projected_load ≤ cfg.max_load then
        select_loop cfg student_mastery session_time_remaining rest
          (selected_items ++ [item]) (current_time + item.estimated_time)
      else if item.scaffolding_available then
        let scaffolded := scaffoldItem item
        let projected_load := calculate_cognitive_load (selected_items ++ [scaffolded]) student_mastery
        if projected_load ≤ cfg.max_load then
          select_loop cfg student_mastery session_time_remaining rest
            (selected_items ++ [scaffolded]) (current_time + scaffolded.estimated_time)
        else
          select_loop cfg student_mastery session_time_remaining rest
            selected_items current_time
      else
        select_loop cfg student_mastery session_time_remaining rest
          selected_items current_time

/-- `AdaptivePracticeEngine.select_next_content`: mastery-efficiency
filter, ZPD ranking, then greedy packing under the time budget. -/
def select_next_content (cfg : CognitiveLoadConfig)
    (available_content : List ContentItem)
    (student_mastery : String → Option ℚ)
    (learning_velocity : String → Option ℚ)
    (session_time_remaining : ℤ) : List ContentItem :=
  let filtered_content := filter_by_mastery available_content student_mastery
  let prioritized := prioritize_by_zpd filtered_content student_mastery learning_velocity
  select_loop cfg student_mastery session_time_remaining prioritized [] 0

/-- Sum of the `estimated_time` fields of a selected item list. -/
def totalTime (l : List ContentItem) : ℤ := (l.map (fun i => i.estimated_time)).sum

/-! ## knowledge_tracing.py -/

/-- `BKTParameters` dataclass with the source's default rates. -/
structure BKTParameters where
  p_l0 : ℚ := 3/10
  p_t : ℚ := 2/10
  p_g : ℚ := 25/100
  p_s : ℚ := 1/10

/-- The default parameter set (`BKTParameters()`). -/
def defaultBKT : BKTParameters := {}

/-- `BKTEngine.update_mastery`: Bayes posterior given the answer (falling
back to the prior on a non-positive denominator), learning transition,
then conversion back to the 0–100 scale clamped by `min(100, max(0, ·))`. -/
def update_mastery (params : BKTParameters) (current_mastery : ℚ)
    (is_correct : Bool) : ℚ :=
  let p_l := current_mastery / 100
  let p_l_new : ℚ :=
    if is_correct then
      let numerator := p_l * (1 - params.p_s)
      let denominator := p_l * (1 - params.p_s) + (1 - p_l) * params.p_g
      let p_l_given_correct := if 0 < denominator then numerator / denominator else p_l
      p_l_given_correct + (1 - p_l_given_correct) * params.p_t
    else
      let numerator := p_l * params.p_s
      let denominator := p_l * params.p_s + (1 - p_l) * (1 - params.p_g)
      let p_l_given_incorrect := if 0 < denominator then numerator / denominator else p_l
      p_l_given_incorrect + (1 - p_l_given_incorrect) * params.p_t
  min 100 (max 0 (p_l_new * 100))

/-- The Bayes posterior for a correct answer before the learning
transition is applied, on the 0–100 scale: the `p_l_given_correct`
sub-expression of `update_mastery` times 100, with no transition term and
no clamping. -/
def bayes_correct (params : BKTParameters) (current_mastery : ℚ) : ℚ :=
  let p_l := current_mastery / 100
  let numerator := p_l * (1 - params.p_s)
  let denominator := p_l * (1 - params.p_s) + (1 - p_l) * params.p_g
  (if 0 < denominator then numerator / denominator else p_l) * 100

/-- One response record as consumed by `DKTEngine.analyze_pattern` and
`EngagementDetectionEngine.detect_disengagement_behaviors`. Optional dict
keys are embedded with their `.get` defaults: `response_time` is `none`
when the key is missing, `hints_used` defaults to 0, `attempts` to 1. -/
structure Response where
  is_correct : Bool
  response_time : Option ℚ := none
  hints_used : ℕ := 0
  attempts : ℕ := 1
deriving DecidableEq, Repr

/-- Result triple of `DKTEngine.analyze_pattern`. -/
structure PatternResult where
  predicted_mastery : ℚ
  confidence : ℚ
  learning_velocity : ℚ
deriving DecidableEq, Repr

/-- The `recent = response_history[-sequence_length:]` window (for the
positive window sizes the engine uses). -/
def recentWindow (sequence_length : ℕ) (history : List Response) : List Response :=
  history.drop (history.length - sequence_length)

/-- The 0/1 accuracy list extracted from a window. -/
def accuracyList (recent : List Response) : List ℚ :=
  recent.map (fun r => if r.is_correct then 1 else 0)

/-- `overall_accuracy = np.mean(accuracies) * 100` over the window. -/
def overall_accuracy (recent : List Response) : ℚ :=
  meanQ (accuracyList recent) * 100

/-- The learning-velocity computation of `analyze_pattern`: first-half vs
second-half accuracy (integer-halved split) when the window has at least
three entries, else 0. -/
def pattern_velocity (recent : List Response) : ℚ :=
  let accuracies := accuracyList recent
  if 3 ≤ accuracies.length then
    let first_half := meanQ (accuracies.take (accuracies.length / 2))
    let second_half := meanQ (accuracies.drop (accuracies.length / 2))
    (second_half - first_half) * 100
  else 0

/-- The response-time bonus of `analyze_pattern`:
`max(0, min(20, 20 − avg/2))` when every response in the window carries a
response time, else 0. (The source also fits an unused linear trend with
`np.polyfit`; that dead local is not modelled.) -/
def time_factor (recent : List Response) : ℚ :=
  if recent.all (fun r => r.response_time.isSome) then
    let times := recent.map (fun r => r.response_time.getD 0)
    let avg_time := meanQ times
    max 0 (min 20 (20 - avg_time / 2))
  else 0

/-- `DKTEngine.analyze_pattern`: defaults on an empty history, otherwise
the fusion `min(100, accuracy·0.7 + (50 + velocity·2)·0.3 + timeFactor)`
with confidence `min(1, |window|/sequence_length)`. Note the fused value
is clamped from above only. -/
def analyze_pattern (sequence_length : ℕ) (response_history : List Response) :
    PatternResult :=
  if response_history.isEmpty then
    { predicted_mastery := 30, confidence := 3/10, learning_velocity := 0 }
  else
    let recent := recentWindow sequence_length response_history
    let velocity := pattern_velocity recent
    let predicted_mastery :=
      min 100 (overall_accuracy recent * (7/10)
        + (50 + velocity * 2) * (3/10) + time_factor recent)
    { predicted_mastery := predicted_mastery
      confidence := min 1 ((recent.length : ℚ) / sequence_length)
      learning_velocity := velocity }

/-- The state of `DKVMNEngine`: value memory (concept → mastery) and key
memory (correlation keys `"a_b"` → weight), both as partial maps. -/
structure DKVMNState where
  value_memory : String → Option ℚ
  key_memory : String → Option ℚ

/-- `DKVMNEngine._calculate_correlation`: stored key weight, default 0.3. -/
def calculate_correlation (st : DKVMNState) (concept_a concept_b : String) : ℚ :=
  (st.key_memory (concept_a ++ "_" ++ concept_b)).getD (3/10)

/-- `DKVMNEngine.read_mastery`: 30.0 for an unseen concept; otherwise the
direct value, blended `0.7·direct + 0.3·mean(related·correlation)` when at
least one related concept has a stored value. -/
def read_mastery (st : DKVMNState) (concept_id : String)
    (related_concepts : List String) : ℚ :=
  match st.value_memory concept_id with
  | none => 30
  | some direct_mastery =>
    let related_mastery := related_concepts.filterMap (fun rel =>
      (st.value_memory rel).map (fun v => v * calculate_correlation st concept_id rel))
    if related_mastery.length = 0 then direct_mastery
    else (7/10) * direct_mastery + (3/10) * meanQ related_mastery

/-- `DKVMNEngine.write_mastery`: set the concept's value (the source's
interim default-30 insertion is immediately overwritten) and register a
0.5 correlation key for each related concept not already present. -/
def write_mastery (st : DKVMNState) (concept_id : String) (mastery_update : ℚ)
    (related_concepts : List String) : DKVMNState :=
  { value_memory := fun c => if c = concept_id then some mastery_update else st.value_memory c
    key_memory := related_concepts.foldl (fun km rel =>
      let key := concept_id ++ "_" ++ rel
      if (km key).isSome then km
      else fun k => if k = key then some (5/10) else km k) st.key_memory }

/-- Result record of `HybridKnowledgeTracing.calculate_mastery`; numeric
fields carry the `round(·, 2)` applied by the source. -/
structure MasteryResult where
  mastery_score : ℚ
  bkt_component : ℚ
  dkt_component : ℚ
  dkvmn_component : ℚ
  confidence : ℚ
  learning_velocity : ℚ
  needs_practice : Bool
  recommendation : String
deriving DecidableEq, Repr

/-- `HybridKnowledgeTracing._get_recommendation`. -/
def get_recommendation (mastery : ℚ) : String :=
  if 85 ≤ mastery then "SKIP - Already mastered, move to next concept"
  else if 60 ≤ mastery then "LIGHT_REVIEW - 1-2 questions for maintenance"
  else "FOCUSED_PRACTICE - 5-10 questions with scaffolding"

/-- `HybridKnowledgeTracing.calculate_mastery`: run the three estimators
(the orchestrator is constructed with default sub-engines: default BKT
rates, sequence length 10), fuse with the confidence-dependent weights,
write the fused value back into the DKVMN memory, and build the result
record. Returns the result together with the updated memory state. -/
def calculate_mastery (st : DKVMNState) (concept_id : String)
    (is_correct : Bool) (current_mastery : ℚ)
    (response_history : List Response) (related_concepts : List String) :
    MasteryResult × DKVMNState :=
  let bkt_mastery := update_mastery defaultBKT current_mastery is_correct
  let dkt_analysis := analyze_pattern 10 response_history
  let dkvmn_mastery := read_mastery st concept_id related_concepts
  let confidence := dkt_analysis.confidence
  let final_mastery :=
    bkt_mastery * (4/10)
    + dkt_analysis.predicted_mastery * ((4/10) * confidence)
    + dkvmn_mastery * (2/10 + (2/10) * (1 - confidence))
  let st2 := write_mastery st concept_id final_mastery related_concepts
  ({ mastery_score := round2 final_mastery
     bkt_component := round2 bkt_mastery
     dkt_component := round2 dkt_analysis.predicted_mastery
     dkvmn_component := round2 dkvmn_mastery
     confidence := round2 confidence
     learning_velocity := round2 dkt_analysis.learning_velocity
     needs_practice := decide (final_mastery < 85)
     recommendation := get_recommendation final_mastery }, st2)

/-- The fused mastery value of `calculate_mastery` before rounding, as a
standalone definition for stating properties. -/
def hybrid_fused (st : DKVMNState) (concept_id : String) (is_correct : Bool)
    (current_mastery : ℚ) (response_history : List Response)
    (related_concepts : List String) : ℚ :=
  let bkt_mastery := update_mastery defaultBKT current_mastery is_correct
  let dkt_analysis := analyze_pattern 10 response_history
  let dkvmn_mastery := read_mastery st concept_id related_concepts
  let confidence := dkt_analysis.confidence
  bkt_mastery * (4/10)
  + dkt_analysis.predicted_mastery * ((4/10) * confidence)
  + dkvmn_mastery * (2/10 + (2/10) * (1 - confidence))

/-! ## engagement_detection.py -/

/-- `EngagementLevel` enum. -/
inductive EngagementLevel where
  | ENGAGED
  | PASSIVE
  | MONITOR
  | AT_RISK
  | CRITICAL
deriving DecidableEq, Repr

/-- Severity strings attached to detected behaviors. -/
inductive Severity where
  | MONITOR
  | AT_RISK
  | CRITICAL
deriving DecidableEq, Repr

/-- `DisengagementBehavior` enum. -/
inductive DisengagementBehavior where
  | QUICK_GUESS
  | BOTTOM_OUT_HINT
  | MANY_ATTEMPTS
  | LOW_LOGIN_FREQUENCY
  | DECLINING_PERFORMANCE
  | LONG_INACTIVITY
deriving DecidableEq, Repr

/-- One detected behavior record: kind, severity and the supporting
numeric metric (`count`, `decline_percentage` or `avg_duration`). The
display-only description string and `detected_at` timestamp are not
modelled. -/
structure BehaviorRecord where
  btype : DisengagementBehavior
  severity : Severity
  metric : ℚ
deriving DecidableEq, Repr

/-- `ImplicitSignals` dataclass. -/
structure ImplicitSignals where
  login_frequency : ℕ
  avg_session_duration : ℚ
  time_on_task : ℚ
  interaction_count : ℕ
  response_times : List ℚ
  task_completion_rate : ℚ
  reattempt_rate : ℚ
  optional_resource_usage : ℕ
  discussion_participation : ℕ
deriving DecidableEq, Repr

/-- `ExplicitSignals` dataclass. -/
structure ExplicitSignals where
  poll_responses : ℕ
  understanding_level : ℚ
  participation_rate : ℚ
  quiz_accuracy : ℚ
deriving DecidableEq, Repr

/-- Python `round(x, 1)` (used for the decline percentage metric). -/
def round1 (x : ℚ) : ℚ := (roundHalfEven (x * 10) : ℚ) / 10

/-- `EngagementDetectionEngine.detect_disengagement_behaviors` with the
default thresholds set in `__init__` (quick guess 3.0 s, max hints 3, many
attempts 3, min logins 3/week, min session 5 min). A response with no
`response_time` key compares `float('inf') < 3.0`, i.e. is never a quick
guess. For a one-element window the first half is empty and NumPy's mean
of it is NaN, so `decline > 0.2` is False; `meanQ [] = 0` makes the
decline `0 − secondHalf ≤ 0`, reproducing that branch. -/
def detect_disengagement_behaviors (recent_responses : List Response)
    (implicit_signals : ImplicitSignals) : List BehaviorRecord :=
  let quick_guesses := recent_responses.countP (fun r =>
    match r.response_time with
    | some t => decide (t < 3)
    | none => false)
  let b1 : List BehaviorRecord :=
    if 3 ≤ quick_guesses then
      [⟨.QUICK_GUESS, if quick_guesses < 5 then .MONITOR else .AT_RISK, quick_guesses⟩]
    else []
  let bottom_out_hints := recent_responses.countP (fun r => decide (3 ≤ r.hints_used))
  let b2 : List BehaviorRecord :=
    if 2 ≤ bottom_out_hints then [⟨.BOTTOM_OUT_HINT, .AT_RISK, bottom_out_hints⟩] else []
  let many_attempts := recent_responses.countP (fun r => decide (3 < r.attempts))
  let b3 : List BehaviorRecord :=
    if 3 ≤ many_attempts then [⟨.MANY_ATTEMPTS, .MONITOR, many_attempts⟩] else []
  let b4 : List BehaviorRecord :=
    if implicit_signals.login_frequency < 3 then
      [⟨.LOW_LOGIN_FREQUENCY,
        if implicit_signals.login_frequency < 2 then .AT_RISK else .MONITOR,
        implicit_signals.login_frequency⟩]
    else []
  let b5 : List BehaviorRecord :=
    if recent_responses.isEmpty then []
    else
      let mid := recent_responses.length / 2
      let first_half_accuracy := meanQ (accuracyList (recent_responses.take mid))
      let second_half_accuracy := meanQ (accuracyList (recent_responses.drop mid))
      let decline := first_half_accuracy - second_half_accuracy
      if 2/10 < decline then
        [⟨.DECLINING_PERFORMANCE, .AT_RISK, round1 (decline * 100)⟩]
      else []
  let b6 : List BehaviorRecord :=
    if implicit_signals.avg_session_duration < 5 then
      [⟨.LONG_INACTIVITY, .MONITOR, implicit_signals.avg_session_duration⟩]
    else []
  b1 ++ b2 ++ b3 ++ b4 ++ b5 ++ b6

/-- The `response_time_score` local of `_calculate_implicit_score`: 50
when no response times are recorded or the average is under 3 s (too fast,
likely guessing), 100 for an average in [3, 30) s, else a linear decay of
2 points per second beyond 30 s, floored at 0. -/
def response_time_score (response_times : List ℚ) : ℚ :=
  if response_times.isEmpty then 50
  else
    let avg_response_time := meanQ response_times
    if avg_response_time < 3 then 50
    else if avg_response_time < 30 then 100
    else max 0 (100 - (avg_response_time - 30) * 2)

/-- `EngagementDetectionEngine._calculate_implicit_score`: each raw signal
normalized against its fixed ideal and clamped at 100 by `min`, then the
weighted blend (weights sum to 1). The source's local subscores are named
with `let`; the response-time subscore is the standalone definition
above. -/
def calculate_implicit_score (signals : ImplicitSignals) : ℚ :=
  let login_score := min 100 (((signals.login_frequency : ℚ) / 7) * 100)
  let duration_score := min 100 ((signals.avg_session_duration / 30) * 100)
  let time_on_task_score := min 100 ((signals.time_on_task / 120) * 100)
  let interaction_score := min 100 (((signals.interaction_count : ℚ) / 50) * 100)
  let completion_score := signals.task_completion_rate * 100
  let reattempt_score := min 100 (signals.reattempt_rate * 150)
  let resource_score := min 100 (((signals.optional_resource_usage : ℚ) / 5) * 100)
  let discussion_score := min 100 (((signals.discussion_participation : ℚ) / 3) * 100)
  login_score * (15/100)
  + duration_score * (15/100)
  + time_on_task_score * (15/100)
  + interaction_score * (1/10)
  + response_time_score signals.response_times * (1/10)
  + completion_score * (2/10)
  + reattempt_score * (5/100)
  + resource_score * (5/100)
  + discussion_score * (5/100)

/-- `EngagementDetectionEngine._calculate_explicit_score`. -/
def calculate_explicit_score (signals : ExplicitSignals) : ℚ :=
  let poll_score := min 100 (((signals.poll_responses : ℚ) / 5) * 100)
  let understanding_score := (signals.understanding_level / 5) * 100
  let participation_score := signals.participation_rate * 100
  let accuracy_score := signals.quiz_accuracy * 100
  poll_score * (2/10)
  + understanding_score * (3/10)
  + participation_score * (3/10)
  + accuracy_score * (2/10)

/-- The behavior penalty summed in `calculate_engagement_score`:
5 per MONITOR, 10 per AT_RISK, 20 per CRITICAL record. -/
def behavior_penalty (behaviors : List BehaviorRecord) : ℚ :=
  (behaviors.map (fun b =>
    match b.severity with
    | .MONITOR => (5 : ℚ)
    | .AT_RISK => 10
    | .CRITICAL => 20)).sum

/-- The final (unrounded) engagement score of `calculate_engagement_score`:
`max(0, 0.6·implicit + 0.4·explicit − penalty)`. -/
def final_engagement_score (implicit_signals : ImplicitSignals)
    (explicit_signals : ExplicitSignals) (behaviors : List BehaviorRecord) : ℚ :=
  let base_score := calculate_implicit_score implicit_signals * (6/10)
    + calculate_explicit_score explicit_signals * (4/10)
  max 0 (base_score - behavior_penalty behaviors)

/-- `EngagementDetectionEngine._classify_engagement`. -/
def classify_engagement (score : ℚ) (behaviors : List BehaviorRecord) :
    EngagementLevel :=
  let critical_behaviors := behaviors.countP (fun b => b.severity == Severity.CRITICAL)
  let at_risk_behaviors := behaviors.countP (fun b => b.severity == Severity.AT_RISK)
  if 0 < critical_behaviors ∨ score < 30 then .CRITICAL
  else if 2 ≤ at_risk_behaviors ∨ score < 50 then .AT_RISK
  else if at_risk_behaviors = 1 ∨ score < 65 then .MONITOR
  else if score < 75 then .PASSIVE
  else .ENGAGED

/-- `EngagementDetectionEngine._generate_recommendations`. -/
def generate_recommendations (level : EngagementLevel)
    (behaviors : List BehaviorRecord) : List String :=
  let level_recs : List String :=
    match level with
    | .CRITICAL =>
      ["URGENT: Schedule immediate 1-on-1 meeting",
       "Contact parents/guardians",
       "Consider support services referral"]
    | .AT_RISK =>
      ["Schedule 1-on-1 check-in within 48 hours",
       "Review recent assignments for difficulty issues",
       "Consider peer mentoring or study group"]
    | .MONITOR =>
      ["Monitor progress for next 3-5 days",
       "Provide encouragement and check understanding"]
    | _ => []
  let behavior_types := behaviors.map (fun b => b.btype)
  let r1 : List String :=
    if behavior_types.contains DisengagementBehavior.QUICK_GUESS then
      ["Add time-lock or reflection prompts to questions"] else []
  let r2 : List String :=
    if behavior_types.contains DisengagementBehavior.BOTTOM_OUT_HINT then
      ["Simplify content or provide more scaffolding"] else []
  let r3 : List String :=
    if behavior_types.contains DisengagementBehavior.LOW_LOGIN_FREQUENCY then
      ["Send reminder notifications or check technology access"] else []
  let r4 : List String :=
    if behavior_types.contains DisengagementBehavior.DECLINING_PERFORMANCE then
      ["Review recent topic - may indicate knowledge gap"] else []
  level_recs ++ r1 ++ r2 ++ r3 ++ r4

/-- Result record of `calculate_engagement_score`. -/
structure EngagementResult where
  engagement_score : ℚ
  implicit_component : ℚ
  explicit_component : ℚ
  engagement_level : EngagementLevel
  penalty_applied : ℚ
  behaviors_detected : ℕ
  recommendations : List String
deriving DecidableEq, Repr

/-- `EngagementDetectionEngine.calculate_engagement_score`: weighted blend
of the implicit and explicit components, behavior penalty, floor at 0,
classification and recommendations. -/
def calculate_engagement_score (implicit_signals : ImplicitSignals)
    (explicit_signals : ExplicitSignals) (behaviors : List BehaviorRecord) :
    EngagementResult :=
  let implicit_score := calculate_implicit_score implicit_signals
  let explicit_score := calculate_explicit_score explicit_signals
  let final_score := final_engagement_score implicit_signals explicit_signals behaviors
  let engagement_level := classify_engagement final_score behaviors
  { engagement_score := round2 final_score
    implicit_component := round2 implicit_score
    explicit_component := round2 explicit_score
    engagement_level := engagement_level
    penalty_applied := behavior_penalty behaviors
    behaviors_detected := behaviors.length
    recommendations := generate_recommendations engagement_level behaviors }

/-! ## Concrete inputs used by witnesses and counterexamples -/

/-- Mastery map holding concept `"c"` at 0. -/
def smC : String → Option ℚ := fun c => if c = "c" then some 0 else none

/-- Empty learning-velocity map. -/
def lv0 : String → Option ℚ := fun _ => none

/-- A hard scaffoldable item: difficulty 0.9, duration 10 minutes. -/
def cItem : ContentItem := ⟨"q", "c", 9/10, 1, 10, true, []⟩

/-- An item with importance weight 2 and difficulty 1. -/
def wItem : ContentItem := ⟨"w", "c", 1, 2, 5, true, []⟩

/-- Mastery map holding concept `"a"` at 45. -/
def smA : String → Option ℚ := fun c => if c = "a" then some 45 else none

/-- An easy item on concept `"a"`: difficulty 0.4, duration 5 minutes. -/
def aItem : ContentItem := ⟨"q1", "a", 2/5, 1, 5, true, []⟩

/-- A three-response history: correct, then two incorrect, no times. -/
def histW : List Response := [⟨true, none, 0, 1⟩, ⟨false, none, 0, 1⟩, ⟨false, none, 0, 1⟩]

/-- An empty associative memory. -/
def st0 : DKVMNState := ⟨fun _ => none, fun _ => none⟩

/-- The implicit-signal snapshot from the module's example usage. -/
def impW : ImplicitSignals :=
  ⟨2, 17/2, 45, 12, [5/2, 9/5, 16/5, 21/10], 13/20, 1/10, 1, 0⟩

/-- The explicit-signal snapshot from the module's example usage. -/
def exW : ExplicitSignals := ⟨3, 5/2, 7/10, 17/25⟩

/-- The response window from the module's example usage. -/
def respW : List Response :=
  [⟨true, some 2, 0, 1⟩, ⟨false, some (3/2), 3, 1⟩,
   ⟨false, some (5/2), 3, 4⟩, ⟨true, some 15, 1, 1⟩]

/-! ## General lemmas -/

/-- Sums of lists whose entries all lie in [0,1] lie in [0, length]. -/
theorem sum_bounds (l : List ℚ) (h : ∀ x ∈ l, 0 ≤ x ∧ x ≤ 1) :
    0 ≤ l.sum ∧ l.sum ≤ l.length := by
  induction l with
  | nil => simp
  | cons x xs ih =>
    have hx := h x (by simp)
    have ihs := ih (fun y hy => h y (by simp [hy]))
    simp only [List.sum_cons, List.length_cons]
    constructor
    · linarith [hx.1, ihs.1]
    · push_cast
      linarith [hx.2, ihs.2]

/-- Appending a single item adds its duration to the total time. -/
theorem totalTime_snoc (l : List ContentItem) (x : ContentItem) :
    totalTime (l ++ [x]) = totalTime l + x.estimated_time := by
  simp [totalTime]

/-- The packing loop keeps total consumed time at most
`max current (budget + 2)`: the only way past the budget is the final +2
of an accepted scaffolded variant, whose acceptance was still gated on the
original duration fitting the budget. -/
theorem select_loop_total_time (cfg : CognitiveLoadConfig)
    (sm : String → Option ℚ) (budget : ℤ) :
    ∀ (l sel : List ContentItem) (cur : ℤ), totalTime sel = cur →
      totalTime (select_loop cfg sm budget l sel cur) ≤ max cur (budget + 2) := by
  intro l
  induction l with
  | nil =>
    intro sel cur h
    simp only [select_loop]
    exact h ▸ le_max_left _ _
  | cons item rest ih =>
    intro sel cur h
    simp only [select_loop]
    split
    · exact h ▸ le_max_left _ _
    · next hbreak =>
      have htime : cur + item.estimated_time ≤ budget := by omega
      split
      · have step := ih (sel ++ [item]) (cur + item.estimated_time)
          (by rw [totalTime_snoc, h])
        rw [max_eq_right (by omega : cur + item.estimated_time ≤ budget + 2)] at step
        exact le_trans step (le_max_right _ _)
      · split
        · split
          · have step := ih (sel ++ [scaffoldItem item])
              (cur + (scaffoldItem item).estimated_time)
              (by rw [totalTime_snoc, h])
            have hsc : (scaffoldItem item).estimated_time = item.estimated_time + 2 := rfl
            rw [hsc] at step
            rw [max_eq_right (by omega : cur + (item.estimated_time + 2) ≤ budget + 2)] at step
            exact le_trans step (le_max_right _ _)
          · exact ih sel cur h
        · exact ih sel cur h

/-- Everything the mastery-efficiency filter keeps has concept mastery
below 85 (for any running counts). -/
theorem filter_aux_mastery_lt (sm : String → Option ℚ) :
    ∀ (content : List ContentItem) (counts : String → ℕ) (item : ContentItem),
      item ∈ filter_by_mastery_aux sm content counts →
      masteryGet sm item.concept_id 30 < 85 := by
  intro content
  induction content with
  | nil =>
    intro counts item h
    simp [filter_by_mastery_aux] at h
  | cons i rest ih =>
    intro counts item h
    simp only [filter_by_mastery_aux] at h
    split at h
    · exact ih _ _ h
    · next h85 =>
      split at h
      · split at h
        · rcases List.mem_cons.mp h with rfl | hmem
          · exact lt_of_not_le h85
          · exact ih _ _ hmem
        · exact ih _ _ h
      · split at h
        · rcases List.mem_cons.mp h with rfl | hmem
          · exact lt_of_not_le h85
          · exact ih _ _ hmem
        · exact ih _ _ h

/-- ZPD ranking permutes its input: membership is preserved. -/
theorem prioritize_mem {content : List ContentItem} {sm lv : String → Option ℚ}
    {item : ContentItem} (h : item ∈ prioritize_by_zpd content sm lv) :
    item ∈ content := by
  simp only [prioritize_by_zpd, List.mem_map] at h
  obtain ⟨pair, hpair, rfl⟩ := h
  have hperm := List.perm_insertionSort
    (fun a b : ℚ × ContentItem => b.1 ≤ a.1)
    (content.map (fun item => (zpd_item_score sm lv item, item)))
  have := hperm.mem_iff.mp hpair
  obtain ⟨j, hj, hp⟩ := List.mem_map.mp this
  rw [← hp]
  exact hj

/-- A property of concept identifiers holding on the accumulator and the
remaining candidates holds on everything the packing loop returns (the
scaffolded variant keeps its item's concept). -/
theorem select_loop_concept_pred (cfg : CognitiveLoadConfig)
    (sm : String → Option ℚ) (budget : ℤ) (P : String → Prop) :
    ∀ (l sel : List ContentItem) (cur : ℤ),
      (∀ x ∈ sel, P x.concept_id) → (∀ x ∈ l, P x.concept_id) →
      ∀ x ∈ select_loop cfg sm budget l sel cur, P x.concept_id := by
  intro l
  induction l with
  | nil =>
    intro sel cur hsel _ x hx
    simp only [select_loop] at hx
    exact hsel x hx
  | cons item rest ih =>
    intro sel cur hsel hl x hx
    have hitem : P item.concept_id := hl item (by simp)
    have hrest : ∀ y ∈ rest, P y.concept_id := fun y hy => hl y (by simp [hy])
    simp only [select_loop] at hx
    split at hx
    · exact hsel x hx
    · split at hx
      · refine ih _ _ ?_ hrest x hx
        intro y hy
        rcases List.mem_append.mp hy with hy | hy
        · exact hsel y hy
        · rw [List.mem_singleton.mp hy]
          exact hitem
      · split at hx
        · split at hx
          · refine ih _ _ ?_ hrest x hx
            intro y hy
            rcases List.mem_append.mp hy with hy | hy
            · exact hsel y hy
            · rw [List.mem_singleton.mp hy]
              exact hitem
          · exact ih _ _ hsel hrest x hx
        · exact ih _ _ hsel hrest x hx

/-- Round-half-even never rounds below the floor. -/
theorem floor_le_roundHalfEven (x : ℚ) : ⌊x⌋ ≤ roundHalfEven x := by
  simp only [roundHalfEven]
  split
  · exact le_refl _
  · split
    · omega
    · split
      · exact le_refl _
      · omega

/-- Round-half-even never rounds above the ceiling. -/
theorem roundHalfEven_le_ceil (x : ℚ) : roundHalfEven x ≤ ⌈x⌉ := by
  simp only [roundHalfEven]
  split
  · exact Int.floor_le_ceil x
  · next h1 =>
    have h2 : (1:ℚ)/2 ≤ x - ⌊x⌋ := not_lt.mp h1
    have hx : (⌊x⌋ : ℚ) < x := by linarith
    have hfc : ⌊x⌋ < ⌈x⌉ := Int.lt_ceil.mpr hx
    split
    · omega
    · split
      · omega
      · omega

/-- Two-decimal rounding preserves the [0, 100] band. -/
theorem round2_bounds (x : ℚ) (h0 : 0 ≤ x) (h1 : x ≤ 100) :
    0 ≤ round2 x ∧ round2 x ≤ 100 := by
  unfold round2
  constructor
  · apply div_nonneg _ (by norm_num)
    have hf : (0:ℤ) ≤ ⌊x * 100⌋ := Int.floor_nonneg.mpr (by positivity)
    exact_mod_cast le_trans hf (floor_le_roundHalfEven (x * 100))
  · rw [div_le_iff₀ (by norm_num : (0:ℚ) < 100)]
    have hc : ⌈x * 100⌉ ≤ 10000 := Int.ceil_le.mpr (by push_cast; linarith)
    have := le_trans (roundHalfEven_le_ceil (x * 100)) hc
    calc (roundHalfEven (x * 100) : ℚ) ≤ 10000 := by exact_mod_cast this
    _ = 100 * 100 := by norm_num

/-! ## Claim theorems -/

/-- C1 (counterexample): with a 10-minute budget and a single scaffoldable
item of duration 10 whose load forces the scaffolded substitution, the
selector returns the 12-minute scaffolded variant: the selected durations
sum to 12 > 10, so the sum is not bounded by the time budget. -/
theorem c1_counterexample :
    totalTime (select_next_content defaultLoadConfig [cItem] smC lv0 10) = 12
    ∧ ¬ totalTime (select_next_content defaultLoadConfig [cItem] smC lv0 10) ≤ 10 := by
  have h : totalTime (select_next_content defaultLoadConfig [cItem] smC lv0 10) = 12 := by
    norm_num [select_next_content, filter_by_mastery, filter_by_mastery_aux,
      prioritize_by_zpd, zpd_item_score, listMin, masteryGet, select_loop,
      calculate_cognitive_load, scaffoldItem, totalTime, List.insertionSort,
      List.orderedInsert, cItem, smC, lv0, defaultLoadConfig]
  exact ⟨h, by rw [h]; norm_num⟩

/-- C1 (amended): for every configuration, content list, mastery map,
velocity map and nonnegative time budget, the sum of the estimated
durations of the items returned by `select_next_content` is at most the
budget plus 2: packing is greedy under the budget except that an accepted
scaffolded variant consumes 2 minutes more than the duration that was
checked against the budget. -/
theorem c1_amended (cfg : CognitiveLoadConfig) (content : List ContentItem)
    (sm lv : String → Option ℚ) (budget : ℤ) (hb : 0 ≤ budget) :
    totalTime (select_next_content cfg content sm lv budget) ≤ budget + 2 := by
  have h := select_loop_total_time cfg sm budget
    (prioritize_by_zpd (filter_by_mastery content sm) sm lv) [] 0 (by simp [totalTime])
  rw [max_eq_right (by omega : (0:ℤ) ≤ budget + 2)] at h
  exact h

/-- C1 (witness): the amended bound instantiated at the counterexample
input with budget 10. -/
theorem c1_witness :
    (0:ℤ) ≤ 10
    ∧ totalTime (select_next_content defaultLoadConfig [cItem] smC lv0 10) ≤ 10 + 2 :=
  ⟨by norm_num, c1_amended defaultLoadConfig [cItem] smC lv0 10 (by norm_num)⟩

/-- C2 (counterexample): one item with weight 2, difficulty 1 and mastery
0 gives cognitive load 2, outside [0,1]; the claimed bound fails when a
weight exceeds 1. -/
theorem c2_counterexample :
    calculate_cognitive_load [wItem] smC = 2
    ∧ ¬ calculate_cognitive_load [wItem] smC ≤ 1 := by
  norm_num [calculate_cognitive_load, masteryGet, wItem, smC]

/-- C2 (amended): when every item's weight and difficulty lie in [0,1] and
every stored mastery lies in [0,100], the cognitive load lies in [0,1];
and the load of the empty item list is exactly 0. -/
theorem c2_amended (items : List ContentItem) (sm : String → Option ℚ)
    (hw : ∀ i ∈ items, 0 ≤ i.weight ∧ i.weight ≤ 1 ∧ 0 ≤ i.difficulty ∧ i.difficulty ≤ 1)
    (hm : ∀ c v, sm c = some v → 0 ≤ v ∧ v ≤ 100) :
    (0 ≤ calculate_cognitive_load items sm ∧ calculate_cognitive_load items sm ≤ 1)
    ∧ calculate_cognitive_load [] sm = 0 := by
  refine ⟨?_, by simp [calculate_cognitive_load]⟩
  rcases items with - | ⟨i, rest⟩
  · simp [calculate_cognitive_load]
  · set items := i :: rest with hitems
    have hterm : ∀ x ∈ items.map (fun item =>
        let ki := masteryGet sm item.concept_id (3/10) / 100
        item.weight * item.difficulty * (1 - ki)), 0 ≤ x ∧ x ≤ 1 := by
      intro x hx
      obtain ⟨item, hitem, rfl⟩ := List.mem_map.mp hx
      obtain ⟨hw0, hw1, hd0, hd1⟩ := hw item hitem
      have hki : 0 ≤ masteryGet sm item.concept_id (3/10) / 100
          ∧ masteryGet sm item.concept_id (3/10) / 100 ≤ 1 := by
        unfold masteryGet
        cases hc : sm item.concept_id with
        | none => norm_num
        | some v =>
          have := hm _ _ hc
          simp only [Option.getD_some]
          constructor
          · exact div_nonneg this.1 (by norm_num)
          · linarith [this.2]
      have h1k : 0 ≤ 1 - masteryGet sm item.concept_id (3/10) / 100 ∧
          1 - masteryGet sm item.concept_id (3/10) / 100 ≤ 1 := by
        constructor <;> linarith [hki.1, hki.2]
      constructor
      · exact mul_nonneg (mul_nonneg hw0 hd0) h1k.1
      · exact mul_le_one₀ (mul_le_one₀ hw1 hd0 hd1) h1k.1 h1k.2
    obtain ⟨hs0, hs1⟩ := sum_bounds _ hterm
    have hlen : (0:ℚ) < items.length := by
      simp [hitems]
      positivity
    unfold calculate_cognitive_load
    have hne : items.length ≠ 0 := by simp [hitems]
    simp only [hne, if_false, List.length_map] at *
    constructor
    · exact div_nonneg hs0 (le_of_lt hlen)
    · rw [div_le_one hlen]
      simpa using hs1

/-- C2 (witness): the amended bound instantiated at one weight-1 item on a
45-mastery concept. -/
theorem c2_witness :
    (0 ≤ calculate_cognitive_load [aItem] smA ∧ calculate_cognitive_load [aItem] smA ≤ 1)
    ∧ calculate_cognitive_load [] smA = 0 := by
  apply c2_amended
  · intro i hi
    simp only [List.mem_singleton] at hi
    subst hi
    norm_num [aItem]
  · intro c v h
    simp only [smA] at h
    split at h
    · obtain rfl : (45:ℚ) = v := by simpa using h
      norm_num
    · simp at h

/-- C3 (counterexample): the history [correct, incorrect, incorrect] has
accuracy 100/3, velocity −100 and no time bonus, so the predicted mastery
is min(100, −65/3) = −65/3 < 0: the fused value is not clamped below at 0
and does not lie in [0,100]. -/
theorem c3_counterexample :
    (analyze_pattern 10 histW).predicted_mastery = -65/3
    ∧ ¬ 0 ≤ (analyze_pattern 10 histW).predicted_mastery := by
  norm_num [analyze_pattern, histW, recentWindow, pattern_velocity, accuracyList,
    overall_accuracy, time_factor, meanQ]

/-- C3 (amended): for every non-empty response history the Pattern
Estimator's predicted mastery equals
min(accuracy·0.7 + (50 + velocity·2)·0.3 + timeFactor, 100) — clamped
above at 100 only — and is therefore at most 100, but it can be negative. -/
theorem c3_amended (h : List Response) (hne : h ≠ []) :
    (analyze_pattern 10 h).predicted_mastery
      = min 100 (overall_accuracy (recentWindow 10 h) * (7/10)
          + (50 + pattern_velocity (recentWindow 10 h) * 2) * (3/10)
          + time_factor (recentWindow 10 h))
    ∧ (analyze_pattern 10 h).predicted_mastery ≤ 100 := by
  have hne' : h.isEmpty = false := by simpa [List.isEmpty_iff] using hne
  constructor
  · simp [analyze_pattern, hne']
  · simp only [analyze_pattern, hne', Bool.false_eq_true, if_false]
    exact min_le_left _ _

/-- C3 (witness): the amended formula instantiated at the three-response
history. -/
theorem c3_witness :
    histW ≠ []
    ∧ ((analyze_pattern 10 histW).predicted_mastery
        = min 100 (overall_accuracy (recentWindow 10 histW) * (7/10)
            + (50 + pattern_velocity (recentWindow 10 histW) * 2) * (3/10)
            + time_factor (recentWindow 10 histW))
      ∧ (analyze_pattern 10 histW).predicted_mastery ≤ 100) :=
  ⟨by simp [histW], c3_amended histW (by simp [histW])⟩

/-- C4 (counterexample): with the default rates, the BKT update of prior
45 on a correct answer is 17300/217 ≈ 79.72, which is not within 0.5 of
58.0. -/
theorem c4_counterexample :
    ¬ |update_mastery defaultBKT 45 true - 58| ≤ 1/2 := by
  norm_num [update_mastery, defaultBKT, abs_le]

/-- C4 (amended): with the default BKT rates, prior mastery 45 and a
correct answer give posterior exactly 17300/217 ≈ 79.72, within 0.5 of
79.7. -/
theorem c4_amended :
    update_mastery defaultBKT 45 true = 17300/217
    ∧ |update_mastery defaultBKT 45 true - 797/10| ≤ 1/2 := by
  norm_num [update_mastery, defaultBKT, abs_le]

/-- C5 (confirmed): for every prior in [0,100] and either outcome the BKT
posterior lies in [0,100]; and on a correct answer under the default rates
the posterior is at least the Bayes posterior without the transition term,
which is at least the prior. -/
theorem c5_confirmed (m : ℚ) (b : Bool) (h0 : 0 ≤ m) (h1 : m ≤ 100) :
    (0 ≤ update_mastery defaultBKT m b ∧ update_mastery defaultBKT m b ≤ 100)
    ∧ bayes_correct defaultBKT m ≤ update_mastery defaultBKT m true
    ∧ m ≤ bayes_correct defaultBKT m := by
  have hbounds : 0 ≤ update_mastery defaultBKT m b ∧ update_mastery defaultBKT m b ≤ 100 := by
    unfold update_mastery
    exact ⟨le_min (by norm_num) (le_max_left 0 _), min_le_left _ _⟩
  have hp0 : (0:ℚ) ≤ m / 100 := by positivity
  have hp1 : m / 100 ≤ 1 := by linarith
  have hden : (0:ℚ) < m / 100 * (9 / 10) + (1 - m / 100) * (1 / 4) := by linarith
  have hupd : update_mastery defaultBKT m true
      = min 100 (max 0 ((m / 100 * (9 / 10) / (m / 100 * (9 / 10) + (1 - m / 100) * (1 / 4)) +
          (1 - m / 100 * (9 / 10) / (m / 100 * (9 / 10) + (1 - m / 100) * (1 / 4))) * (1 / 5)) *
          100)) := by
    simp only [update_mastery, defaultBKT]
    norm_num
    rw [if_pos]
    exact hden
  have hbay : bayes_correct defaultBKT m
      = m / 100 * (9 / 10) / (m / 100 * (9 / 10) + (1 - m / 100) * (1 / 4)) * 100 := by
    simp only [bayes_correct, defaultBKT]
    norm_num
    intro hle
    linarith
  set q := m / 100 * (9 / 10) / (m / 100 * (9 / 10) + (1 - m / 100) * (1 / 4)) with hq
  have hq0 : 0 ≤ q := by
    rw [hq]
    apply div_nonneg _ hden.le
    nlinarith
  have hq1 : q ≤ 1 := by
    rw [hq, div_le_one hden]
    nlinarith [mul_nonneg (sub_nonneg.mpr hp1) (by norm_num : (0:ℚ) ≤ 1/4)]
  have hpq : m / 100 ≤ q := by
    rw [hq, le_div_iff₀ hden]
    nlinarith [mul_nonneg hp0 (sub_nonneg.mpr hp1)]
  have hupd2 : update_mastery defaultBKT m true = (q + (1 - q) * (1 / 5)) * 100 := by
    rw [hupd, max_eq_right (by nlinarith), min_eq_right (by nlinarith)]
  refine ⟨hbounds, ?_, ?_⟩
  · rw [hbay, hupd2]
    nlinarith
  · rw [hbay]
    nlinarith

/-- C5 (witness): the chain instantiated at prior 45 with a correct
answer. -/
theorem c5_witness :
    (0:ℚ) ≤ 45 ∧ (45:ℚ) ≤ 100
    ∧ ((0 ≤ update_mastery defaultBKT 45 true ∧ update_mastery defaultBKT 45 true ≤ 100)
      ∧ bayes_correct defaultBKT 45 ≤ update_mastery defaultBKT 45 true
      ∧ (45:ℚ) ≤ bayes_correct defaultBKT 45) :=
  ⟨by norm_num, by norm_num, c5_confirmed 45 true (by norm_num) (by norm_num)⟩

/-- C6 (confirmed): the hybrid result's mastery score is the two-decimal
rounding of exactly bkt·0.4 + predicted·(0.4·c) + assoc·(0.2 + 0.2·(1−c))
with c the pattern confidence (no renormalization); needsPractice holds
iff the fused value is below 85; and the recommendation follows the
thresholds ≥85 skip, ≥60 light review, otherwise focused practice. -/
theorem c6_confirmed (st : DKVMNState) (concept_id : String) (b : Bool)
    (cm : ℚ) (hist : List Response) (rel : List String) :
    ((calculate_mastery st concept_id b cm hist rel).1.mastery_score
        = round2 (hybrid_fused st concept_id b cm hist rel))
    ∧ hybrid_fused st concept_id b cm hist rel
        = update_mastery defaultBKT cm b * (4/10)
          + (analyze_pattern 10 hist).predicted_mastery
            * ((4/10) * (analyze_pattern 10 hist).confidence)
          + read_mastery st concept_id rel
            * (2/10 + (2/10) * (1 - (analyze_pattern 10 hist).confidence))
    ∧ ((calculate_mastery st concept_id b cm hist rel).1.needs_practice = true
        ↔ hybrid_fused st concept_id b cm hist rel < 85)
    ∧ (85 ≤ hybrid_fused st concept_id b cm hist rel →
        (calculate_mastery st concept_id b cm hist rel).1.recommendation
          = "SKIP - Already mastered, move to next concept")
    ∧ (60 ≤ hybrid_fused st concept_id b cm hist rel →
        hybrid_fused st concept_id b cm hist rel < 85 →
        (calculate_mastery st concept_id b cm hist rel).1.recommendation
          = "LIGHT_REVIEW - 1-2 questions for maintenance")
    ∧ (hybrid_fused st concept_id b cm hist rel < 60 →
        (calculate_mastery st concept_id b cm hist rel).1.recommendation
          = "FOCUSED_PRACTICE - 5-10 questions with scaffolding") := by
  refine ⟨rfl, rfl, ?_, ?_, ?_, ?_⟩
  · simp only [calculate_mastery, hybrid_fused]
    exact decide_eq_true_iff
  · intro h
    simp only [hybrid_fused] at h
    simp only [calculate_mastery, get_recommendation]
    rw [if_pos h]
  · intro h60 h85
    simp only [hybrid_fused] at h60 h85
    simp only [calculate_mastery, get_recommendation]
    rw [if_neg (not_le.mpr h85), if_pos h60]
  · intro h60
    simp only [hybrid_fused] at h60
    simp only [calculate_mastery, get_recommendation]
    rw [if_neg (by exact not_le.mpr (lt_of_lt_of_le h60 (by norm_num))), if_neg (not_le.mpr h60)]

/-- C6 (witness): the fusion and threshold facts instantiated at an empty
memory, prior 45, a correct answer and the three-response history. -/
theorem c6_witness :
    ((calculate_mastery st0 "c" true 45 histW []).1.mastery_score
        = round2 (hybrid_fused st0 "c" true 45 histW []))
    ∧ hybrid_fused st0 "c" true 45 histW []
        = update_mastery defaultBKT 45 true * (4/10)
          + (analyze_pattern 10 histW).predicted_mastery
            * ((4/10) * (analyze_pattern 10 histW).confidence)
          + read_mastery st0 "c" []
            * (2/10 + (2/10) * (1 - (analyze_pattern 10 histW).confidence))
    ∧ ((calculate_mastery st0 "c" true 45 histW []).1.needs_practice = true
        ↔ hybrid_fused st0 "c" true 45 histW [] < 85)
    ∧ (85 ≤ hybrid_fused st0 "c" true 45 histW [] →
        (calculate_mastery st0 "c" true 45 histW []).1.recommendation
          = "SKIP - Already mastered, move to next concept")
    ∧ (60 ≤ hybrid_fused st0 "c" true 45 histW [] →
        hybrid_fused st0 "c" true 45 histW [] < 85 →
        (calculate_mastery st0 "c" true 45 histW []).1.recommendation
          = "LIGHT_REVIEW - 1-2 questions for maintenance")
    ∧ (hybrid_fused st0 "c" true 45 histW [] < 60 →
        (calculate_mastery st0 "c" true 45 histW []).1.recommendation
          = "FOCUSED_PRACTICE - 5-10 questions with scaffolding") :=
  c6_confirmed st0 "c" true 45 histW []

/-- C7 (confirmed): every item returned by `select_next_content` — in any
form — belongs to a concept whose mastery (default 30) is below 85; in
particular no unscaffolded item of a mastery-85-or-above concept is ever
returned. -/
theorem c7_confirmed (cfg : CognitiveLoadConfig) (content : List ContentItem)
    (sm lv : String → Option ℚ) (budget : ℤ) (item : ContentItem)
    (h : item ∈ select_next_content cfg content sm lv budget) :
    masteryGet sm item.concept_id 30 < 85 := by
  refine select_loop_concept_pred cfg sm budget
    (fun c => masteryGet sm c 30 < 85)
    (prioritize_by_zpd (filter_by_mastery content sm) sm lv) [] 0
    (by simp) ?_ item h
  intro x hx
  exact filter_aux_mastery_lt sm content _ x (prioritize_mem hx)

/-- C7 (witness): the invariant instantiated at a session that selects the
45-mastery item. -/
theorem c7_witness : masteryGet smA aItem.concept_id 30 < 85 := by
  apply c7_confirmed defaultLoadConfig [aItem] smA lv0 30 aItem
  norm_num [select_next_content, filter_by_mastery, filter_by_mastery_aux,
    prioritize_by_zpd, zpd_item_score, listMin, masteryGet, select_loop,
    calculate_cognitive_load, scaffoldItem, List.insertionSort,
    List.orderedInsert, aItem, smA, lv0, defaultLoadConfig]

/-- C8 (counterexample): on out-of-domain inputs the core computes instead
of failing: a prior mastery of 150 is processed by the BKT update and the
result silently clamped to 100, and a weight-2/negative-duration item is
processed by the load calculation, returning 2. -/
theorem c8_counterexample :
    update_mastery defaultBKT 150 true = 100
    ∧ calculate_cognitive_load [⟨"x", "c", 2, 1, -3, true, []⟩] smC = 2 := by
  constructor
  · norm_num [update_mastery, defaultBKT]
  · norm_num [calculate_cognitive_load, masteryGet, smC]

/-- C8 (amended): the core performs no input validation: even for priors
outside [0,100] the BKT update returns a silently clamped value in
[0,100] rather than a validation error. -/
theorem c8_amended (m : ℚ) (b : Bool) (_h : m < 0 ∨ 100 < m) :
    0 ≤ update_mastery defaultBKT m b ∧ update_mastery defaultBKT m b ≤ 100 := by
  unfold update_mastery
  constructor
  · exact le_min (by norm_num) (le_max_left 0 _)
  · exact min_le_left _ _

/-- C8 (witness): the amended statement instantiated at the out-of-domain
prior 150. -/
theorem c8_witness :
    ((150:ℚ) < 0 ∨ (100:ℚ) < 150)
    ∧ (0 ≤ update_mastery defaultBKT 150 true ∧ update_mastery defaultBKT 150 true ≤ 100) :=
  ⟨Or.inr (by norm_num), c8_amended 150 true (Or.inr (by norm_num))⟩

/-- A min-against-100 clamp of a nonnegative value lies in [0,100]. -/
theorem min100_bounds (y : ℚ) (hy : 0 ≤ y) : 0 ≤ min 100 y ∧ min 100 y ≤ 100 :=
  ⟨le_min (by norm_num) hy, min_le_left _ _⟩

/-- The response-time subscore always lies in [0,100], whatever the
recorded times. -/
theorem response_time_score_bounds (l : List ℚ) :
    0 ≤ response_time_score l ∧ response_time_score l ≤ 100 := by
  simp only [response_time_score]
  split
  · norm_num
  · split
    · norm_num
    · split
      · norm_num
      · next h3 h30 =>
        have h30' : (30:ℚ) ≤ meanQ l := not_lt.mp h30
        constructor
        · exact le_max_left _ _
        · apply max_le (by norm_num)
          linarith

/-- The implicit component lies in [0,100] whenever the rate and duration
signals are within their declared domains. -/
theorem implicit_score_bounds (s : ImplicitSignals)
    (hdur : 0 ≤ s.avg_session_duration) (htot : 0 ≤ s.time_on_task)
    (hc0 : 0 ≤ s.task_completion_rate) (hc1 : s.task_completion_rate ≤ 1)
    (hre : 0 ≤ s.reattempt_rate) :
    0 ≤ calculate_implicit_score s ∧ calculate_implicit_score s ≤ 100 := by
  have h1 := min100_bounds (((s.login_frequency : ℚ) / 7) * 100) (by positivity)
  have h2 := min100_bounds ((s.avg_session_duration / 30) * 100)
    (mul_nonneg (div_nonneg hdur (by norm_num)) (by norm_num))
  have h3 := min100_bounds ((s.time_on_task / 120) * 100)
    (mul_nonneg (div_nonneg htot (by norm_num)) (by norm_num))
  have h4 := min100_bounds (((s.interaction_count : ℚ) / 50) * 100) (by positivity)
  have h5 := response_time_score_bounds s.response_times
  have h6 : 0 ≤ s.task_completion_rate * 100 ∧ s.task_completion_rate * 100 ≤ 100 :=
    ⟨mul_nonneg hc0 (by norm_num), by linarith⟩
  have h7 := min100_bounds (s.reattempt_rate * 150) (mul_nonneg hre (by norm_num))
  have h8 := min100_bounds (((s.optional_resource_usage : ℚ) / 5) * 100) (by positivity)
  have h9 := min100_bounds (((s.discussion_participation : ℚ) / 3) * 100) (by positivity)
  simp only [calculate_implicit_score]
  constructor
  · linarith [h1.1, h2.1, h3.1, h4.1, h5.1, h6.1, h7.1, h8.1, h9.1]
  · linarith [h1.2, h2.2, h3.2, h4.2, h5.2, h6.2, h7.2, h8.2, h9.2]

/-- The explicit component lies in [0,100] within the declared domains. -/
theorem explicit_score_bounds (s : ExplicitSignals)
    (hu0 : 1 ≤ s.understanding_level) (hu1 : s.understanding_level ≤ 5)
    (hp0 : 0 ≤ s.participation_rate) (hp1 : s.participation_rate ≤ 1)
    (hq0 : 0 ≤ s.quiz_accuracy) (hq1 : s.quiz_accuracy ≤ 1) :
    0 ≤ calculate_explicit_score s ∧ calculate_explicit_score s ≤ 100 := by
  have h1 := min100_bounds (((s.poll_responses : ℚ) / 5) * 100) (by positivity)
  have h2 : 0 ≤ (s.understanding_level / 5) * 100 ∧ (s.understanding_level / 5) * 100 ≤ 100 := by
    constructor <;> [positivity; skip]
    rw [div_mul_eq_mul_div, div_le_iff₀ (by norm_num : (0:ℚ) < 5)]
    linarith
  have h3 : 0 ≤ s.participation_rate * 100 ∧ s.participation_rate * 100 ≤ 100 :=
    ⟨mul_nonneg hp0 (by norm_num), by linarith⟩
  have h4 : 0 ≤ s.quiz_accuracy * 100 ∧ s.quiz_accuracy * 100 ≤ 100 :=
    ⟨mul_nonneg hq0 (by norm_num), by linarith⟩
  simp only [calculate_explicit_score]
  constructor
  · linarith [h1.1, h2.1, h3.1, h4.1]
  · linarith [h1.2, h2.2, h3.2, h4.2]

/-- The behavior penalty is a sum of nonnegative contributions. -/
theorem behavior_penalty_nonneg (l : List BehaviorRecord) : 0 ≤ behavior_penalty l := by
  induction l with
  | nil => simp [behavior_penalty]
  | cons b t ih =>
    simp only [behavior_penalty, List.map_cons, List.sum_cons] at ih ⊢
    have hb : (0:ℚ) ≤ (match b.severity with
        | Severity.MONITOR => (5 : ℚ)
        | Severity.AT_RISK => 10
        | Severity.CRITICAL => 20) := by
      cases b.severity <;> norm_num
    linarith

/-- Classification returns CRITICAL exactly when a CRITICAL-severity
behavior is present or the score is below 30. -/
theorem classify_critical_iff (score : ℚ) (behaviors : List BehaviorRecord) :
    classify_engagement score behaviors = EngagementLevel.CRITICAL
      ↔ (∃ b ∈ behaviors, b.severity = Severity.CRITICAL) ∨ score < 30 := by
  simp only [classify_engagement]
  constructor
  · intro h
    by_cases hc : 0 < behaviors.countP (fun b => b.severity == Severity.CRITICAL) ∨ score < 30
    · rcases hc with hc | hc
      · left
        obtain ⟨b, hb, hp⟩ := List.countP_pos_iff.mp hc
        exact ⟨b, hb, by simpa using hp⟩
      · right
        exact hc
    · rw [if_neg hc] at h
      exfalso
      split at h <;> simp_all
      split at h <;> simp_all
      split at h <;> simp_all
  · intro h
    have hcond : 0 < behaviors.countP (fun b => b.severity == Severity.CRITICAL) ∨ score < 30 := by
      rcases h with ⟨b, hb, hs⟩ | hs
      · exact Or.inl (List.countP_pos_iff.mpr ⟨b, hb, by simp [hs]⟩)
      · exact Or.inr hs
    rw [if_pos hcond]

/-- C9 (confirmed): within the declared signal domains and for every
behavior list, the final engagement score (floored at 0) lies in [0,100],
the returned rounded score lies in [0,100], and the CRITICAL level is
returned iff a CRITICAL behavior is present or the final score is below
30. -/
theorem c9_confirmed (imp : ImplicitSignals) (ex : ExplicitSignals)
    (behaviors : List BehaviorRecord)
    (hdur : 0 ≤ imp.avg_session_duration) (htot : 0 ≤ imp.time_on_task)
    (hc0 : 0 ≤ imp.task_completion_rate) (hc1 : imp.task_completion_rate ≤ 1)
    (hre : 0 ≤ imp.reattempt_rate)
    (hu0 : 1 ≤ ex.understanding_level) (hu1 : ex.understanding_level ≤ 5)
    (hp0 : 0 ≤ ex.participation_rate) (hp1 : ex.participation_rate ≤ 1)
    (hq0 : 0 ≤ ex.quiz_accuracy) (hq1 : ex.quiz_accuracy ≤ 1) :
    (0 ≤ final_engagement_score imp ex behaviors
      ∧ final_engagement_score imp ex behaviors ≤ 100)
    ∧ (0 ≤ (calculate_engagement_score imp ex behaviors).engagement_score
      ∧ (calculate_engagement_score imp ex behaviors).engagement_score ≤ 100)
    ∧ ((calculate_engagement_score imp ex behaviors).engagement_level
          = EngagementLevel.CRITICAL
        ↔ (∃ b ∈ behaviors, b.severity = Severity.CRITICAL)
          ∨ final_engagement_score imp ex behaviors < 30) := by
  have himp := implicit_score_bounds imp hdur htot hc0 hc1 hre
  have hexp := explicit_score_bounds ex hu0 hu1 hp0 hp1 hq0 hq1
  have hpen := behavior_penalty_nonneg behaviors
  have hfin : 0 ≤ final_engagement_score imp ex behaviors
      ∧ final_engagement_score imp ex behaviors ≤ 100 := by
    unfold final_engagement_score
    constructor
    · exact le_max_left _ _
    · apply max_le (by norm_num)
      linarith [himp.1, himp.2, hexp.1, hexp.2]
  have hr2 := round2_bounds _ hfin.1 hfin.2
  refine ⟨hfin, ?_, ?_⟩
  · simpa only [calculate_engagement_score] using hr2
  · show classify_engagement (final_engagement_score imp ex behaviors) behaviors
        = EngagementLevel.CRITICAL ↔ _
    exact classify_critical_iff _ _

/-- C9 (witness): the bounds and the CRITICAL characterization
instantiated at the example-usage signal snapshots with no behaviors. -/
theorem c9_witness :
    (0 ≤ final_engagement_score impW exW []
      ∧ final_engagement_score impW exW [] ≤ 100)
    ∧ (0 ≤ (calculate_engagement_score impW exW []).engagement_score
      ∧ (calculate_engagement_score impW exW []).engagement_score ≤ 100)
    ∧ ((calculate_engagement_score impW exW []).engagement_level
          = EngagementLevel.CRITICAL
        ↔ (∃ b ∈ ([] : List BehaviorRecord), b.severity = Severity.CRITICAL)
          ∨ final_engagement_score impW exW [] < 30) :=
  c9_confirmed impW exW []
    (by norm_num [impW]) (by norm_num [impW]) (by norm_num [impW])
    (by norm_num [impW]) (by norm_num [impW])
    (by norm_num [exW]) (by norm_num [exW]) (by norm_num [exW])
    (by norm_num [exW]) (by norm_num [exW]) (by norm_num [exW])

/-- C10 (confirmed): the behavior detector never emits a CRITICAL
severity, so when the classifier's behavior list comes from the detector
the CRITICAL level is reached exactly when the score is below 30. -/
theorem c10_confirmed (resp : List Response) (sig : ImplicitSignals) :
    (∀ b ∈ detect_disengagement_behaviors resp sig, b.severity ≠ Severity.CRITICAL)
    ∧ ∀ score : ℚ,
        (classify_engagement score (detect_disengagement_behaviors resp sig)
          = EngagementLevel.CRITICAL ↔ score < 30) := by
  have hns : ∀ b ∈ detect_disengagement_behaviors resp sig,
      b.severity ≠ Severity.CRITICAL := by
    intro b hb
    simp only [detect_disengagement_behaviors, List.mem_append] at hb
    rcases hb with ((((hb | hb) | hb) | hb) | hb) | hb
    · split at hb
      · simp only [List.mem_singleton] at hb
        subst hb
        dsimp only
        split <;> simp
      · simp at hb
    · split at hb
      · simp only [List.mem_singleton] at hb
        subst hb
        simp
      · simp at hb
    · split at hb
      · simp only [List.mem_singleton] at hb
        subst hb
        simp
      · simp at hb
    · split at hb
      · simp only [List.mem_singleton] at hb
        subst hb
        dsimp only
        split <;> simp
      · simp at hb
    · split at hb
      · simp at hb
      · split at hb
        · simp only [List.mem_singleton] at hb
          subst hb
          simp
        · simp at hb
    · split at hb
      · simp only [List.mem_singleton] at hb
        subst hb
        simp
      · simp at hb
  refine ⟨hns, fun score => ?_⟩
  rw [classify_critical_iff]
  have hne : ¬ ∃ b ∈ detect_disengagement_behaviors resp sig,
      b.severity = Severity.CRITICAL := by
    rintro ⟨b, hb, hs⟩
    exact hns b hb hs
  exact or_iff_right hne

/-- C10 (witness): the CRITICAL characterization instantiated at the
example-usage window and signals with score 25. -/
theorem c10_witness :
    classify_engagement 25 (detect_disengagement_behaviors respW impW)
      = EngagementLevel.CRITICAL ↔ (25:ℚ) < 30 :=
  (c10_confirmed respW impW).2 25

end Insight
